import Mathlib

/-!
Shallow embedding of the single-page client in `src/app/page.tsx` of the
`trustwise-assignment-fe` repository.

The page is one React component holding seven state slots (input text, last
result, history list, two loading flags, error message, dark-mode flag), two
fetch-based actions (`handleEvaluate`, `handleGetHistory`), a theme toggle
persisted to `localStorage`, and pure conditional rendering.  We embed the
state as a record, each action as a function from the pre-state and the
outcome of its (at most one) network call to a run record that exposes the
number of network calls issued, the state observable while the call is
outstanding, and the final state.  Rendering is embedded as pure functions
from state to abstract view structures.  JavaScript numbers carrying model
scores are embedded as rationals, and `Number.prototype.toFixed(2)` as
rounding to the nearest hundredth (ties away from zero, matching the JS
behaviour on the values at issue).
-/

/-- `interface EvaluationResult`: the nested `gibberish` object
(`{ class: string; score: number }`) from `page.tsx`. -/
structure GibberishResult where
  «class» : String
  score : ℚ
deriving DecidableEq, Repr

/-- `interface EvaluationResult` from `page.tsx`. -/
structure EvaluationResult where
  gibberish : GibberishResult
  hallucination : ℚ
deriving DecidableEq, Repr

/-- `interface HistoryItem` from `page.tsx`. -/
structure HistoryItem where
  sentence : String
  gibberish_model_class : String
  gibberish_model_score : ℚ
  hallucination_model_score : ℚ
deriving DecidableEq, Repr

/-- The component state slots declared by the seven `useState` calls in
`Home` (theme state aside, which also involves the document and
`localStorage` and is modelled separately as `ThemeState`). -/
structure AppState where
  inputText : String
  result : Option EvaluationResult
  history : List HistoryItem
  isEvaluating : Bool
  isLoadingHistory : Bool
  error : Option String
  darkMode : Bool
deriving DecidableEq, Repr

/-- The initial values passed to `useState`: `""`, `null`, `[]`, `false`,
`false`, `null`, `false`. -/
def initAppState : AppState :=
  { inputText := ""
    result := none
    history := []
    isEvaluating := false
    isLoadingHistory := false
    error := none
    darkMode := false }

/-- JavaScript truthiness of `backendUrl : string | undefined`
(`process.env.NEXT_PUBLIC_BACKEND_URL`): falsy when absent or the empty
string. -/
def jsTruthy : Option String → Bool
  | none => false
  | some s => !s.isEmpty

/-- `Response.ok` of the Fetch API: status in the range 200-299. -/
def responseOk (status : Nat) : Bool :=
  200 ≤ status && status ≤ 299

/-- The message of the error thrown on a non-ok response:
`` `HTTP error! status: ${response.status}` ``. -/
def httpErrorMessage (status : Nat) : String :=
  "HTTP error! status: " ++ toString status

/-- Outcome of one `fetch` call: either the promise rejects (network
failure, carrying the `Error` message) or a response arrives with a status
and a parsed JSON body of type `β`. -/
inductive FetchOutcome (β : Type) where
  | networkFailure (message : String)
  | response (status : Nat) (body : β)
deriving DecidableEq, Repr

/-- The JSON body expected by `handleEvaluate`: `{ result: EvaluationResult }`
(the code reads `data.result`). -/
structure EvalResponseBody where
  result : EvaluationResult
deriving DecidableEq, Repr

/-- One run of an action handler: how many network calls it issued, the
state observable while its call was outstanding (empty when no call was
issued), and the state after the handler finished. -/
structure ActionRun where
  networkCalls : Nat
  inFlight : List AppState
  final : AppState
deriving DecidableEq, Repr

/-- `handleEvaluate` from `page.tsx`.  Guard: `if (!backendUrl)` set the
configuration error and return.  Otherwise `setIsEvaluating(true)`,
`setError(null)`, `fetch(...)`; a non-ok response throws
`httpErrorMessage status`, which the `catch` stores as the error; on ok the
body's `result` field is stored; the `finally` clears the loading flag. -/
def handleEvaluateRun (backendUrl : Option String) (s : AppState)
    (outcome : FetchOutcome EvalResponseBody) : ActionRun :=
  if jsTruthy backendUrl then
    let during : AppState := { s with isEvaluating := true, error := none }
    match outcome with
    | .networkFailure msg =>
        { networkCalls := 1
          inFlight := [during]
          final := { during with error := some msg, isEvaluating := false } }
    | .response status body =>
        if responseOk status then
          { networkCalls := 1
            inFlight := [during]
            final := { during with result := some body.result, isEvaluating := false } }
        else
          { networkCalls := 1
            inFlight := [during]
            final :=
              { during with
                error := some (httpErrorMessage status)
                isEvaluating := false } }
  else
    { networkCalls := 0
      inFlight := []
      final := { s with error := some "Backend URL is not configured" } }

/-- `handleGetHistory` from `page.tsx`.  Same shape as `handleEvaluateRun`
but with the `isLoadingHistory` flag, and on ok `setHistory(data)` stores
the whole parsed body. -/
def handleGetHistoryRun (backendUrl : Option String) (s : AppState)
    (outcome : FetchOutcome (List HistoryItem)) : ActionRun :=
  if jsTruthy backendUrl then
    let during : AppState := { s with isLoadingHistory := true, error := none }
    match outcome with
    | .networkFailure msg =>
        { networkCalls := 1
          inFlight := [during]
          final := { during with error := some msg, isLoadingHistory := false } }
    | .response status body =>
        if responseOk status then
          { networkCalls := 1
            inFlight := [during]
            final := { during with history := body, isLoadingHistory := false } }
        else
          { networkCalls := 1
            inFlight := [during]
            final :=
              { during with
                error := some (httpErrorMessage status)
                isLoadingHistory := false } }
  else
    { networkCalls := 0
      inFlight := []
      final := { s with error := some "Backend URL is not configured" } }

/-- The `disabled` expression of the evaluate button:
`isEvaluating || !inputText || !backendUrl`. -/
def evaluateDisabled (backendUrl : Option String) (s : AppState) : Bool :=
  s.isEvaluating || s.inputText.isEmpty || !jsTruthy backendUrl

/-- The `disabled` expression of the history button:
`isLoadingHistory || !backendUrl`. -/
def historyDisabled (backendUrl : Option String) (s : AppState) : Bool :=
  s.isLoadingHistory || !jsTruthy backendUrl

/-- A user click on the evaluate button: a disabled button fires no handler
(the click is a no-op), otherwise `handleEvaluate` runs. -/
def clickEvaluate (backendUrl : Option String) (s : AppState)
    (outcome : FetchOutcome EvalResponseBody) : ActionRun :=
  if evaluateDisabled backendUrl s then
    { networkCalls := 0, inFlight := [], final := s }
  else
    handleEvaluateRun backendUrl s outcome

/-- Theme-relevant state: the component's `darkMode` flag, whether
`document.documentElement` carries the `dark` class, and the value stored
under the `theme` key in `localStorage` (`none` when the key is absent). -/
structure ThemeState where
  darkMode : Bool
  documentDark : Bool
  storedTheme : Option String
deriving DecidableEq, Repr

/-- `toggleTheme` from `page.tsx`: `setDarkMode(!darkMode)`; when the
captured `darkMode` was true, remove the `dark` class and store `"light"`,
otherwise add the class and store `"dark"`. -/
def toggleTheme (t : ThemeState) : ThemeState :=
  if t.darkMode then
    { darkMode := false, documentDark := false, storedTheme := some "light" }
  else
    { darkMode := true, documentDark := true, storedTheme := some "dark" }

/-- The mount effect (`useEffect` with `[]` deps) from `page.tsx`, run on a
fresh document (no `dark` class): read `localStorage.getItem('theme')` once,
`setDarkMode(savedTheme === 'dark')`, and add the `dark` class only when the
saved value is exactly `"dark"`. -/
def initThemeEffect (savedTheme : Option String) : ThemeState :=
  { darkMode := savedTheme == some "dark"
    documentDark := savedTheme == some "dark"
    storedTheme := savedTheme }

/-- Zero-padded two-digit decimal numeral of `n < 100`. -/
def pad2 (n : Nat) : String :=
  if n < 10 then "0" ++ toString n else toString n

/-- `toFixed(2)` on a nonnegative rational: round to the nearest hundredth
(ties away from zero) and print with exactly two digits after the point.
The rounded value `⌊100 q + 1 / 2⌋` is computed on the numerator and
denominator directly as `(200 num + den) / (2 den)`. -/
def toFixed2Aux (q : ℚ) : String :=
  let n : Nat := ((q.num * 200 + q.den) / (2 * (q.den : ℤ))).toNat
  toString (n / 100) ++ "." ++ pad2 (n % 100)

/-- `Number.prototype.toFixed(2)` as used on the model scores (a rational
is negative exactly when its reduced numerator is). -/
def toFixed2 (q : ℚ) : String :=
  if q.num < 0 then "-" ++ toFixed2Aux (-q) else toFixed2Aux q

/-- Abstract content of the result panel: the three scalar texts it shows. -/
structure ResultPanel where
  gibberishClass : String
  gibberishScore : String
  hallucinationScore : String
deriving DecidableEq, Repr

/-- The `{result && (...)}` block of the JSX: rendered exactly when a result
is stored, showing `result.gibberish.class` verbatim and the two scores
through `toFixed(2)`. -/
def renderResultPanel (s : AppState) : Option ResultPanel :=
  s.result.map fun r =>
    { gibberishClass := r.gibberish.«class»
      gibberishScore := toFixed2 r.gibberish.score
      hallucinationScore := toFixed2 r.hallucination }

/-- Abstract content of one history table row, including its React `key`
(the map index) and the `Eval {index + 1}` label. -/
structure HistoryRow where
  key : Nat
  evalLabel : String
  sentence : String
  gibberish_model_class : String
  gibberish_model_score : String
  hallucination_model_score : String
deriving DecidableEq, Repr

/-- One row of the history table body in the JSX (`history.map((item, index)
=> ...)`): keyed by index, labelled `Eval {index + 1}`, sentence and class
verbatim, scores through `toFixed(2)`. -/
def renderHistoryRow (index : Nat) (item : HistoryItem) : HistoryRow :=
  { key := index
    evalLabel := "Eval " ++ toString (index + 1)
    sentence := item.sentence
    gibberish_model_class := item.gibberish_model_class
    gibberish_model_score := toFixed2 item.gibberish_model_score
    hallucination_model_score := toFixed2 item.hallucination_model_score }

/-- All rows of the history table body, in order. -/
def historyRows (history : List HistoryItem) : List HistoryRow :=
  history.enum.map fun p => renderHistoryRow p.1 p.2

/-- One series of the line chart. -/
structure Dataset where
  label : String
  data : List ℚ
deriving DecidableEq, Repr

/-- The object returned by `getChartData`. -/
structure ChartData where
  labels : List String
  datasets : List Dataset
deriving DecidableEq, Repr

/-- `getChartData` from `page.tsx`: one label per history item and two
datasets, the per-item gibberish scores and the per-item hallucination
scores. -/
def getChartData (history : List HistoryItem) : ChartData :=
  { labels := (List.range history.length).map fun index => "Eval " ++ toString (index + 1)
    datasets :=
      [ { label := "Gibberish Model Score"
          data := history.map fun item => item.gibberish_model_score }
      , { label := "Hallucination Model Score"
          data := history.map fun item => item.hallucination_model_score } ] }

/-- Abstract content of the `{history.length > 0 && (...)}` block: the
chart and the table rows. -/
structure HistorySection where
  chart : ChartData
  rows : List HistoryRow
deriving DecidableEq, Repr

/-- The history block of the JSX: rendered exactly when the history list is
non-empty. -/
def renderHistorySection (s : AppState) : Option HistorySection :=
  if s.history.length > 0 then
    some { chart := getChartData s.history, rows := historyRows s.history }
  else
    none

/-- Helper: the thrown HTTP error message contains the decimal status as a
substring (it is a suffix of the message). -/
theorem toString_status_isInfix_httpErrorMessage (status : Nat) :
    List.IsInfix (toString status).toList (httpErrorMessage status).toList :=
  ⟨"HTTP error! status: ".toList, [], by
    simp [httpErrorMessage, String.toList, String.data_append]⟩

/-- C1: with the backend configured, a non-2xx response to either action
stores an error message containing the HTTP status, a network failure
stores the failure message, and in all four failing cases the previously
stored result and history are left unchanged. -/
theorem failure_outcomes_set_error_and_preserve_result_history
    (url : Option String) (s : AppState) (status : Nat) (msg : String)
    (bodyE : EvalResponseBody) (bodyH : List HistoryItem)
    (hurl : jsTruthy url = true) (hstatus : responseOk status = false) :
    (handleEvaluateRun url s (.response status bodyE)).final.error
        = some (httpErrorMessage status) ∧
    (handleEvaluateRun url s (.response status bodyE)).final.result = s.result ∧
    (handleEvaluateRun url s (.response status bodyE)).final.history = s.history ∧
    (handleGetHistoryRun url s (.response status bodyH)).final.error
        = some (httpErrorMessage status) ∧
    (handleGetHistoryRun url s (.response status bodyH)).final.result = s.result ∧
    (handleGetHistoryRun url s (.response status bodyH)).final.history = s.history ∧
    (handleEvaluateRun url s (.networkFailure msg)).final.error = some msg ∧
    (handleEvaluateRun url s (.networkFailure msg)).final.result = s.result ∧
    (handleEvaluateRun url s (.networkFailure msg)).final.history = s.history ∧
    (handleGetHistoryRun url s (.networkFailure msg)).final.error = some msg ∧
    (handleGetHistoryRun url s (.networkFailure msg)).final.result = s.result ∧
    (handleGetHistoryRun url s (.networkFailure msg)).final.history = s.history ∧
    List.IsInfix (toString status).toList (httpErrorMessage status).toList := by
  refine ⟨?_, ?_, ?_, ?_, ?_, ?_, ?_, ?_, ?_, ?_, ?_, ?_,
    toString_status_isInfix_httpErrorMessage status⟩ <;>
    simp [handleEvaluateRun, handleGetHistoryRun, hurl, hstatus]

/-- C1 witness: concrete instance at status 404 against a configured
backend. -/
theorem failure_outcomes_witness :
    (handleEvaluateRun (some "http://backend") initAppState
        (.response 404 ⟨⟨⟨"Clean", 0⟩, 0⟩⟩)).final.error
      = some (httpErrorMessage 404) :=
  (failure_outcomes_set_error_and_preserve_result_history
    (some "http://backend") initAppState 404 "Failed to fetch"
    ⟨⟨⟨"Clean", 0⟩, 0⟩⟩ [] (by decide) (by decide)).1

/-- C2: with empty input text the evaluate button is disabled and clicking
it is a no-op: no network call is issued and the state is unchanged. -/
theorem empty_input_click_is_noop
    (url : Option String) (s : AppState) (o : FetchOutcome EvalResponseBody)
    (h : s.inputText = "") :
    evaluateDisabled url s = true ∧
    clickEvaluate url s o = { networkCalls := 0, inFlight := [], final := s } := by
  have hd : evaluateDisabled url s = true := by
    simp [evaluateDisabled, h]
    exact Or.inl (Or.inr (by decide))
  exact ⟨hd, by simp [clickEvaluate, hd]⟩

/-- C2 witness: concrete instance at the initial state. -/
theorem empty_input_click_is_noop_witness :
    clickEvaluate (some "http://backend") initAppState (.networkFailure "x")
      = { networkCalls := 0, inFlight := [], final := initAppState } :=
  (empty_input_click_is_noop (some "http://backend") initAppState
    (.networkFailure "x") rfl).2

/-- C3: with the backend URL unset (or empty), both handlers set the
configuration error message, change nothing else, and issue no network
call (no in-flight state exists); the initial state carries no error, so
no error is surfaced before an action is invoked. -/
theorem unconfigured_backend_sets_config_error_no_call
    (url : Option String) (s : AppState)
    (oe : FetchOutcome EvalResponseBody) (oh : FetchOutcome (List HistoryItem))
    (h : jsTruthy url = false) :
    initAppState.error = none ∧
    handleEvaluateRun url s oe
      = { networkCalls := 0, inFlight := []
          final := { s with error := some "Backend URL is not configured" } } ∧
    handleGetHistoryRun url s oh
      = { networkCalls := 0, inFlight := []
          final := { s with error := some "Backend URL is not configured" } } := by
  refine ⟨rfl, ?_, ?_⟩ <;> simp [handleEvaluateRun, handleGetHistoryRun, h]

/-- C3 witness: concrete instance with the URL absent. -/
theorem unconfigured_backend_witness :
    handleEvaluateRun none initAppState (.networkFailure "x")
      = { networkCalls := 0, inFlight := []
          final := { initAppState with error := some "Backend URL is not configured" } } :=
  (unconfigured_backend_sets_config_error_no_call none initAppState
    (.networkFailure "x") (.networkFailure "x") rfl).2.1

/-- C4: with the backend configured, a successful history fetch replaces
the whole history state with exactly the response payload, while a non-2xx
response or a network failure leaves the prior history unchanged. -/
theorem history_fetch_replaces_on_success_preserves_on_failure
    (url : Option String) (s : AppState) (body : List HistoryItem)
    (msg : String) (stOk stBad : Nat)
    (hurl : jsTruthy url = true)
    (hok : responseOk stOk = true) (hbad : responseOk stBad = false) :
    (handleGetHistoryRun url s (.response stOk body)).final.history = body ∧
    (handleGetHistoryRun url s (.response stBad body)).final.history = s.history ∧
    (handleGetHistoryRun url s (.networkFailure msg)).final.history = s.history := by
  refine ⟨?_, ?_, ?_⟩ <;> simp [handleGetHistoryRun, hurl, hok, hbad]

/-- C4 witness: a one-item payload replaces the initial empty history. -/
theorem history_fetch_witness :
    (handleGetHistoryRun (some "http://backend") initAppState
        (.response 200 [⟨"hi", "Clean", mkRat 1 10, mkRat 2 10⟩])).final.history
      = [⟨"hi", "Clean", mkRat 1 10, mkRat 2 10⟩] :=
  (history_fetch_replaces_on_success_preserves_on_failure
    (some "http://backend") initAppState [⟨"hi", "Clean", mkRat 1 10, mkRat 2 10⟩]
    "Failed to fetch" 200 500 (by decide) (by decide) (by decide)).1

/-- C5 counterexample: from the initial state of a fresh session (light
mode, no `dark` class, no persisted `theme` key) two toggles do NOT return
the persisted storage value to its original state: the key ends up holding
`"light"` where it was originally absent, so the toggle is not an
involution on the persisted value for every starting state. -/
theorem toggle_twice_counterexample :
    (toggleTheme (toggleTheme
        { darkMode := false, documentDark := false, storedTheme := none })).storedTheme
      = some "light" ∧
    ({ darkMode := false, documentDark := false, storedTheme := none }
        : ThemeState).storedTheme = none ∧
    toggleTheme (toggleTheme
        { darkMode := false, documentDark := false, storedTheme := none })
      ≠ { darkMode := false, documentDark := false, storedTheme := none } := by
  refine ⟨rfl, rfl, ?_⟩
  decide

/-- C5 amended: two toggles always restore the dark-mode flag, and on any
state produced by a previous toggle they restore the document class and the
persisted value as well (toggle ∘ toggle ∘ toggle = toggle); on arbitrary
starting states only the flag is guaranteed to return. -/
theorem toggle_twice_amended (t : ThemeState) :
    (toggleTheme (toggleTheme t)).darkMode = t.darkMode ∧
    toggleTheme (toggleTheme (toggleTheme t)) = toggleTheme t := by
  cases t with
  | mk d doc st => cases d <;> simp [toggleTheme]

/-- C6: the mount effect reads the persisted theme value once and leaves it
unchanged; the dark-mode flag and the `dark` document class are set exactly
when that value equals `"dark"`, and stay off when it is absent or any
other string. -/
theorem init_theme_effect_defaults (saved : Option String) :
    (initThemeEffect saved).darkMode = (saved == some "dark") ∧
    (initThemeEffect saved).documentDark = (saved == some "dark") ∧
    (initThemeEffect saved).storedTheme = saved :=
  ⟨rfl, rfl, rfl⟩

/-- C7: the result panel is rendered exactly when a result is stored, and
for the result `{ gibberish: { class: "Clean", score: 0.12 },
hallucination: 0.03 }` it displays `"Clean"`, `"0.12"` and `"0.03"`. -/
theorem result_panel_iff_result_and_concrete_display (s : AppState) :
    (renderResultPanel s).isSome = s.result.isSome ∧
    renderResultPanel
        { initAppState with
          result := some { gibberish := { «class» := "Clean", score := mkRat 12 100 }
                           hallucination := mkRat 3 100 } }
      = some { gibberishClass := "Clean", gibberishScore := "0.12"
               hallucinationScore := "0.03" } := by
  constructor
  · cases h : s.result <;> simp [renderResultPanel, h]
  · decide

/-- C8: for a history list of length `n` the table body has exactly `n`
rows, the row at index `i` is the rendering of the `i`-th item keyed by
`i`, and the chart has exactly the two score series, each with `n` points
whose `i`-th point is the corresponding score of the `i`-th item. -/
theorem history_rows_and_chart_shape (history : List HistoryItem) (i : Nat) :
    (historyRows history).length = history.length ∧
    (historyRows history)[i]? = history[i]?.map (renderHistoryRow i) ∧
    (getChartData history).datasets.map Dataset.label
      = ["Gibberish Model Score", "Hallucination Model Score"] ∧
    ((getChartData history).datasets.map fun d => d.data.length)
      = [history.length, history.length] ∧
    ((getChartData history).datasets.map fun d => d.data[i]?)
      = [history[i]?.map HistoryItem.gibberish_model_score,
         history[i]?.map HistoryItem.hallucination_model_score] := by
  refine ⟨?_, ?_, rfl, ?_, ?_⟩
  · simp [historyRows]
  · simp [historyRows, List.getElem?_enum]
    cases history[i]? <;> simp
  · simp [getChartData]
  · simp [getChartData, List.getElem?_map]

/-- C9: during any run of either action the in-flight state (when a
network call is outstanding) has that action's own loading flag set, and
after the run the flag is false whenever a call was issued — whatever the
outcome — and untouched when no call was issued; no outcome leaves a
loading flag stuck. -/
theorem loading_flags_lifecycle (url : Option String) (s : AppState)
    (oe : FetchOutcome EvalResponseBody) (oh : FetchOutcome (List HistoryItem)) :
    ((handleEvaluateRun url s oe).inFlight.all fun d => d.isEvaluating) = true ∧
    (handleEvaluateRun url s oe).final.isEvaluating
      = (decide ((handleEvaluateRun url s oe).networkCalls = 0) && s.isEvaluating) ∧
    ((handleGetHistoryRun url s oh).inFlight.all fun d => d.isLoadingHistory) = true ∧
    (handleGetHistoryRun url s oh).final.isLoadingHistory
      = (decide ((handleGetHistoryRun url s oh).networkCalls = 0) && s.isLoadingHistory) := by
  by_cases hb : jsTruthy url = true
  · refine ⟨?_, ?_, ?_, ?_⟩
    · cases oe <;> (simp [handleEvaluateRun, hb]; try (split <;> simp))
    · cases oe <;> (simp [handleEvaluateRun, hb]; try (split <;> simp))
    · cases oh <;> (simp [handleGetHistoryRun, hb]; try (split <;> simp))
    · cases oh <;> (simp [handleGetHistoryRun, hb]; try (split <;> simp))
  · have hb2 : jsTruthy url = false := by simpa using hb
    refine ⟨?_, ?_, ?_, ?_⟩ <;> simp [handleEvaluateRun, handleGetHistoryRun, hb2]

/-- C10: with the backend configured, both handlers clear the shared error
message before the request goes out: each issues exactly one network call
and the state observable while the call is outstanding carries no error
(and the action's own loading flag), whatever the eventual outcome. -/
theorem configured_actions_clear_error_before_request
    (url : Option String) (s : AppState)
    (oe : FetchOutcome EvalResponseBody) (oh : FetchOutcome (List HistoryItem))
    (h : jsTruthy url = true) :
    (handleEvaluateRun url s oe).networkCalls = 1 ∧
    (handleEvaluateRun url s oe).inFlight
      = [{ s with isEvaluating := true, error := none }] ∧
    (handleGetHistoryRun url s oh).networkCalls = 1 ∧
    (handleGetHistoryRun url s oh).inFlight
      = [{ s with isLoadingHistory := true, error := none }] := by
  refine ⟨?_, ?_, ?_, ?_⟩ <;>
    [cases oe; cases oe; cases oh; cases oh] <;>
    simp [handleEvaluateRun, handleGetHistoryRun, h] <;> split <;> simp

/-- C10 witness: concrete instance where a previous error is cleared on the
way into a new request. -/
theorem configured_actions_clear_error_witness :
    (handleEvaluateRun (some "http://backend")
        { initAppState with error := some "previous banner" }
        (.networkFailure "x")).inFlight
      = [{ initAppState with isEvaluating := true, error := none }] :=
  (configured_actions_clear_error_before_request (some "http://backend")
    { initAppState with error := some "previous banner" }
    (.networkFailure "x") (.networkFailure "x") (by decide)).2.1
